import Mathlib

/-!
Verification of the install-grub menu-generation and install-orchestration
engine against its specification.  The definitions below are a shallow
embedding of the Rust sources: paths and buffers are `String`s, sets are
`List`s, the filesystem and subprocesses are explicit parameters, and
fallible code returns `Except`.
-/

set_option maxHeartbeats 1000000

namespace InstallGrub

/-! Basic string helpers used by the embedding. -/

/-- Embeds Rust `str::starts_with` on string patterns: `startsWithStr s p`
holds when `p` is a prefix of `s`. -/
def startsWithStr (s p : String) : Bool :=
  List.isPrefixOf p.data s.data

/-- Embeds `path.to_string_lossy().replace('/', "-")` from
`Builder::copy_to_kernels_dir` (src/builder/entries.rs:382): a single-char
pattern replaced by a single char is a per-character map. -/
def replaceSlashes (s : String) : String :=
  String.mk (s.data.map (fun c => if c == '/' then '-' else c))

/-- Embeds `Path::strip_prefix("/nix/store")` as used in
`Builder::copy_to_kernels_dir` (src/builder/entries.rs:372) on canonical
file paths strictly below the store root: returns the store-relative part,
or `none` when the path is not under `/nix/store/`. -/
def stripStoreRoot (p : String) : Option String :=
  if List.isPrefixOf ("/nix/store/".data) p.data
  then some (String.mk (p.data.drop ("/nix/store/".data.length)))
  else none

/-- Lexicographic comparison of char lists; used to embed `Vec::sort` on
path names (`links.sort()` in src/builder/entries.rs:144). -/
def leChars : List Char → List Char → Bool
  | [], _ => true
  | _ :: _, [] => false
  | a :: as, b :: bs => if a < b then true else if b < a then false else leChars as bs

/-- Insertion step of the sort used for specialisation links. -/
def insertSorted (x : String) : List String → List String
  | [] => [x]
  | y :: ys => if leChars x.data y.data then x :: y :: ys else y :: insertSorted x ys

/-- Embeds `links.sort()` (src/builder/entries.rs:144) as an insertion sort. -/
def sortStrings : List String → List String
  | [] => []
  | x :: xs => insertSorted x (sortStrings xs)

/-! The target matrix (src/builder/install.rs:208-288). -/

/-- Embeds `enum EfiTarget` (src/builder/install.rs:208-223); the `Path`
fields become `String`s. -/
inductive EfiTarget where
  | both (bios biosTarget efi efiTarget : String)
  | biosOnly (bios : String)
  | efiOnly (efi efiTarget : String)
  | neither
deriving DecidableEq, Repr

/-- Embeds `EfiTarget::deduce` (src/builder/install.rs:225-258).  The match
arms are kept in source order; `bail!` becomes `Except.error` with the
source message. -/
def EfiTarget.deduce (grub grubEfi grubTarget grubTargetEfi : Option String) :
    Except String EfiTarget :=
  match grub, grubEfi, grubTarget, grubTargetEfi with
  | some bios, some efi, some biosTarget, some efiTarget =>
      .ok (.both bios biosTarget efi efiTarget)
  | some _, some _, _, _ =>
      .error "EFI can only be installed when target is set; a target is also required then for non-EFI grub"
  | some bios, none, _, _ => .ok (.biosOnly bios)
  | none, some efi, _, some efiTarget => .ok (.efiOnly efi efiTarget)
  | none, some _, _, _ => .error "EFI can only be installed when target is set"
  | none, none, _, _ => .ok .neither

/-- Embeds `EfiTarget::to_str` (src/builder/install.rs:280-287). -/
def EfiTarget.toStr : EfiTarget → String
  | .both _ _ _ _ => "both"
  | .biosOnly _ => "no"
  | .efiOnly _ _ => "only"
  | .neither => "neither"

/-- Definition following the words of the claim about the target matrix,
for comparison with `EfiTarget.deduce`: all four set gives Both; grub set
and grubEfi unset gives BiosOnly; grub unset with grubEfi and grubTargetEfi
set gives EfiOnly; all four unset gives Neither; `none` stands for every
other combination, which the claim calls an error. -/
def claimedDeduce (grub grubEfi grubTarget grubTargetEfi : Option String) :
    Option EfiTarget :=
  match grub, grubEfi, grubTarget, grubTargetEfi with
  | some bios, some efi, some biosTarget, some efiTarget =>
      some (.both bios biosTarget efi efiTarget)
  | some bios, none, _, _ => some (.biosOnly bios)
  | none, some efi, _, some efiTarget => some (.efiOnly efi efiTarget)
  | none, none, none, none => some .neither
  | _, _, _, _ => none

/-! The persisted-state reconciler (src/builder/install.rs:290-442). -/

/-- Embeds the fields of `struct GrubState` that `GrubState::update` reads
and writes (src/builder/install.rs:290-300); the `path` field only names
the state file on disk and is omitted. -/
structure GrubState where
  name : String
  version : String
  efi : String
  devices : List String
  efiMountPoint : String
  extraGrubInstallArgs : List String
deriving DecidableEq, Repr

/-- Embeds the fields of `Config` that `GrubState::update` consumes
(src/config.rs:7-64). -/
structure Config where
  fullName : String
  fullVersion : String
  efiSysMountPoint : String
  devices : List String
  extraGrubInstallArgs : List String
deriving DecidableEq, Repr

/-- Embeds `HashSet::is_disjoint` on the sets built from the two lists
(src/builder/install.rs:390-397): true when the lists share no element. -/
def listDisjoint (a b : List String) : Bool :=
  a.all (fun x => !(b.contains x))

/-- Embeds `GrubState::update` (src/builder/install.rs:387-441).  The Rust
body tests six conditions in order, each setting a `dirty` flag and
overwriting the one field its own test reads; the chain of intermediate
`(dirty, state)` pairs below mirrors that sequence. -/
def GrubState.update (s0 : GrubState) (c : Config) (t : EfiTarget) :
    Bool × GrubState :=
  let r1 : Bool × GrubState :=
    if !(listDisjoint c.devices s0.devices)
    then (true, { s0 with devices := c.devices })
    else (false, s0)
  let r2 : Bool × GrubState :=
    if !(listDisjoint c.extraGrubInstallArgs r1.2.extraGrubInstallArgs)
    then (true, { r1.2 with extraGrubInstallArgs := c.extraGrubInstallArgs })
    else r1
  let r3 : Bool × GrubState :=
    if c.fullName != r2.2.name
    then (true, { r2.2 with name := c.fullName })
    else r2
  let r4 : Bool × GrubState :=
    if c.fullVersion != r3.2.version
    then (true, { r3.2 with version := c.fullVersion })
    else r3
  let r5 : Bool × GrubState :=
    if t.toStr != r4.2.efi
    then (true, { r4.2 with efi := t.toStr })
    else r4
  let r6 : Bool × GrubState :=
    if c.efiSysMountPoint != r5.2.efiMountPoint
    then (true, { r5.2 with efiMountPoint := c.efiSysMountPoint })
    else r5
  r6

/-! The os-prober step of the install driver (src/builder/install.rs:16-95). -/

/-- Outcome of the os-prober step: either no subprocess ran, or the
`30_os-prober` script of the given package was run with its output appended
to the temporary config. -/
inductive OsProberAction where
  | notInvoked
  | invoked (package : String)
deriving DecidableEq, Repr

/-- Embeds `Builder::run_os_prober` (src/builder/install.rs:70-95): the
guard on `use_os_prober`, the package choice per target variant, and the
`todo!` panic on `Neither` as an error. -/
def runOsProber (useOsProber : Bool) (t : EfiTarget) :
    Except String OsProberAction :=
  if useOsProber then .ok .notInvoked
  else
    match t with
    | .both _ _ efi _ => .ok (.invoked efi)
    | .efiOnly efi _ => .ok (.invoked efi)
    | .biosOnly bios => .ok (.invoked bios)
    | .neither => .error "This is unhandled in the Perl version!!"

/-- Embeds the os-prober step as reached from `Builder::install`
(src/builder/install.rs:21-29): a dry run returns before `run_os_prober`
is called. -/
def osProberDuringInstall (dryRun useOsProber : Bool) (t : EfiTarget) :
    Except String OsProberAction :=
  if dryRun then .ok .notInvoked else runOsProber useOsProber t

/-! The kernel stager (src/builder/entries.rs:369-408). -/

/-- State the stager threads through: the copied-paths set and the set of
files existing under the boot path (the abstract filesystem). -/
structure StagerState where
  copied : List String
  files : List String
deriving DecidableEq, Repr

/-- Embeds `Builder::copy_to_kernels_dir` (src/builder/entries.rs:369-408)
for an already canonical `canonicalPath`.  `grubStorePath` is
`self.grub_store` reduced to its GRUB-visible path; `grubBootPath` is
`self.grub_boot.path`.  The copy branch records `dst` in `files` when it
performs the `copy` + `rename` pair; the returned GRUB path reproduces the
source expression `self.grub_boot.path.join("kernels/name")` verbatim. -/
def copyToKernelsDir (grubStorePath : Option String)
    (grubBootPath bootPath : String) (dryRun : Bool) (st : StagerState)
    (canonicalPath : String) : Except String (String × StagerState) :=
  match stripStoreRoot canonicalPath with
  | none => .error ("Path " ++ canonicalPath ++ " is not in /nix/store!")
  | some rel =>
    match grubStorePath with
    | some storePath => .ok (storePath ++ "/" ++ rel, st)
    | none =>
      let name := replaceSlashes rel
      let dst := bootPath ++ "/kernels/" ++ name
      let files := if !dryRun && !(st.files.contains dst)
        then dst :: st.files else st.files
      .ok (grubBootPath ++ "/kernels/name",
           { copied := dst :: st.copied, files := files })

/-! Initrd-secrets staging (src/builder/entries.rs:285-367). -/

/-- Observable events of the staging routine, in order of occurrence. -/
inductive SecretsEvent where
  | umaskSet (mask : Nat)
  | hookInvoked
  | umaskRestored (mask : Nat)
deriving DecidableEq, Repr

/-- Outcome of `Builder::append_initrd_secrets`: the event trace, the
process file-creation mask after the routine returns, and the result (the
optional GRUB-visible secrets path, or the error). -/
structure SecretsOutcome where
  events : List SecretsEvent
  finalUmask : Nat
  result : Except String (Option String)

/-- Embeds the control flow of `Builder::append_initrd_secrets`
(src/builder/entries.rs:285-367) with the umask as explicit state.
`hookExecutable` is the check on lines 292-299, `hookSucceeds` the exit
status of the hook, `secretsNonEmpty` the size check on line 346.  On the
`bail!` path for the current system (line 328) the routine returns before
the `umask(old_umask)` call on line 343. -/
def appendInitrdSecretsStaging (oldUmask : Nat) (hookExecutable : Bool)
    (systemName grubBootPath : String) (dryRun hookSucceeds current
    secretsNonEmpty : Bool) : SecretsOutcome :=
  if !hookExecutable then
    { events := [], finalUmask := oldUmask, result := .ok none }
  else
    let secretsName := systemName ++ "-secrets"
    let grubSecretsPath := grubBootPath ++ "/kernels/" ++ secretsName
    if dryRun then
      { events := [], finalUmask := oldUmask,
        result := .ok (some grubSecretsPath) }
    else if !hookSucceeds && current then
      { events := [.umaskSet 0o137, .hookInvoked],
        finalUmask := 0o137,
        result := .error "Failed to create initrd secrets" }
    else
      { events := [.umaskSet 0o137, .hookInvoked, .umaskRestored oldUmask],
        finalUmask := oldUmask,
        result := .ok (if secretsNonEmpty then some grubSecretsPath else none) }

/-! Font staging and header emission (src/builder/appearance.rs:19-56). -/

/-- Embeds the copy destination `boot_path.join("converted-font.pf2")`
(src/builder/appearance.rs:30). -/
def fontCopyDest (bootPath : String) : String :=
  bootPath ++ "/converted-font.pf2"

/-- Embeds the `loadfont` argument
`self.grub_boot.path.join("convert-font.pf2")` interpolated into the
emitted header (src/builder/appearance.rs:52). -/
def fontLoadfontArg (grubBootPath : String) : String :=
  grubBootPath ++ "/convert-font.pf2"

/-- Embeds the raw string written by `Builder::append_font`
(src/builder/appearance.rs:37-53), line by line. -/
def appendFontLines (grubBootPath gfxModeEfi gfxPayloadEfi gfxModeBios
    gfxPayloadBios : String) : List String :=
  [ "insmod font",
    "if loadfont " ++ fontLoadfontArg grubBootPath ++ "; then",
    "  insmod gfxterm",
    "  if [ \"$\x7bgrub_platform\x7d\" = \"efi\" ]; then",
    "    set gfxmode=" ++ gfxModeEfi,
    "    set gfxpayload=" ++ gfxPayloadEfi,
    "  else",
    "    set gfxmode=" ++ gfxModeBios,
    "    set gfxpayload=" ++ gfxPayloadBios,
    "  fi",
    "  terminal_output gfxterm",
    "fi",
    "" ]

/-! Generation listing (src/builder/entries.rs:17-202). -/

/-- Embeds the opening statement of `Builder::add_generation`
(src/builder/entries.rs:141-144): `fs::read_dir(path.join("specialisation"))?`
followed by `links.sort()`.  The filesystem is a map from a directory path
to its entry names, `none` meaning the directory cannot be read (missing or
unreadable); the `?` turns that into an error of the whole call. -/
def addGeneration (fs : String → Option (List String)) (genPath : String) :
    Except String (List String) :=
  match fs (genPath ++ "/specialisation") with
  | none => .error ("cannot read directory " ++ genPath ++ "/specialisation")
  | some links => .ok (sortStrings links)

/-- Embeds the call site for the default entry
(`Builder::append_default_entries`, src/builder/entries.rs:35-41), which
propagates any `add_generation` error with `?`. -/
def appendDefaultEntries (fs : String → Option (List String))
    (defaultConfig : String) : Except String Unit :=
  match addGeneration fs defaultConfig with
  | .error e => .error e
  | .ok _ => .ok ()

/-- Embeds the per-generation loop of `Builder::add_profile`
(src/builder/entries.rs:114-128), which calls `add_generation` for every
listed link and propagates any error with `?`. -/
def addProfileGenerations (fs : String → Option (List String)) :
    List String → Except String Unit
  | [] => .ok ()
  | l :: rest =>
    match addGeneration fs l with
    | .error e => .error e
    | .ok _ => addProfileGenerations fs rest

/-! The configuration loader, user passwords (src/config.rs:164-204). -/

/-- Embeds `enum Password` (src/config.rs:82-86). -/
inductive Password where
  | plain (s : String)
  | hashed (s : String)
deriving DecidableEq, Repr

/-- Embeds the `Error` variants reachable from the per-user decoding
(src/config.rs:88-100). -/
inductive ConfigError where
  | invalidHashedPassword (hash user : String)
  | passwordNotFound (user : String)
  | ioError (path : String)
deriving DecidableEq, Repr

/-- Embeds the four password-source attributes of one user node
(src/config.rs:171-174): `some v` when the attribute is present with
string value `v`. -/
structure UserNode where
  hashedPasswordFile : Option String
  hashedPassword : Option String
  passwordFile : Option String
  password : Option String
deriving DecidableEq, Repr

/-- Embeds the per-user closure of `Users::from_node`
(src/config.rs:168-199): the if-let chain selecting the first present
source (reading `*File` sources through `fs`, where `none` is an I/O
error), then the guarded match rejecting a hashed value unless
`hash.starts_with("grub.pdkdf2")` holds — the guard string is taken
verbatim from line 191 of the source. -/
def userPassword (fs : String → Option String) (user : String)
    (node : UserNode) : Except ConfigError (String × Password) :=
  let pw : Except ConfigError Password :=
    match node.hashedPasswordFile with
    | some f =>
      match fs f with
      | some contents => .ok (.hashed contents)
      | none => .error (.ioError f)
    | none =>
      match node.hashedPassword with
      | some h => .ok (.hashed h)
      | none =>
        match node.passwordFile with
        | some f =>
          match fs f with
          | some contents => .ok (.plain contents)
          | none => .error (.ioError f)
        | none =>
          match node.password with
          | some p => .ok (.plain p)
          | none => .error (.passwordNotFound user)
  match pw with
  | .error e => .error e
  | .ok (.hashed hash) =>
    if !(startsWithStr hash "grub.pdkdf2")
    then .error (.invalidHashedPassword hash user)
    else .ok (user, .hashed hash)
  | .ok p => .ok (user, p)

/-! The entry point (src/main.rs:12-27). -/

/-- Embeds the argument handling of `main` (src/main.rs:13-19): `argv` is
the full OS argument vector as yielded by `std::env::args`, whose first
element is the program name.  The source takes `args.next()` twice without
skipping that first element. -/
def mainArgs (argv : List String) : Except String (String × String) :=
  match argv with
  | [] => .error "Config file not given: expected it to be the first argument"
  | [_] => .error "Default config not given: expected it to be the second argument"
  | a :: b :: _ => .ok (a, b)

/-! Theorems settling the claims. -/

/-- C1: the claim says the GRUB-visible path returned by the kernel stager
is the boot path joined with the slash-mangled store-relative name, and
that the referenced file exists.  The code instead returns the literal
string `kernels/name` appended to the GRUB boot path, which differs from
the mangled destination it stages on disk, so the path referenced by every
menu entry is never among the staged files. -/
theorem C1_grub_path_literal :
    copyToKernelsDir none "/boot" "/boot" false { copied := [], files := [] }
        "/nix/store/abc123-linux-6.6/bzImage"
      = .ok ("/boot/kernels/name",
             { copied := ["/boot/kernels/abc123-linux-6.6-bzImage"],
               files := ["/boot/kernels/abc123-linux-6.6-bzImage"] })
  ∧ ("/boot/kernels/name" : String)
      ≠ "/boot/kernels/" ++ replaceSlashes "abc123-linux-6.6/bzImage"
  ∧ (["/boot/kernels/abc123-linux-6.6-bzImage"].contains
      "/boot/kernels/name") = false :=
  ⟨rfl, by decide, by decide⟩

/-- C2: the claim says os-prober runs exactly when `use_os_prober` is true
on a non-dry run.  The code tests the flag the wrong way round: with the
flag set it skips os-prober, and with the flag clear it runs the
`30_os-prober` script of the configured package. -/
theorem C2_os_prober_inverted :
    osProberDuringInstall false true (.biosOnly "/nix/store/aaa-grub-2.12")
      = .ok .notInvoked
  ∧ osProberDuringInstall false false (.biosOnly "/nix/store/aaa-grub-2.12")
      = .ok (.invoked "/nix/store/aaa-grub-2.12") :=
  ⟨rfl, rfl⟩

/-- C3: the claim says the reconciler reports clean when the loaded state
equals the desired state, so a second unchanged run skips `grub-install`.
With a non-empty device list the equal device sets are not disjoint, so
`update` reports dirty on a state identical to the desired one. -/
theorem C3_unchanged_state_reported_dirty :
    (GrubState.update
      { name := "NixOS", version := "24.05", efi := "no",
        devices := ["/dev/sda"], efiMountPoint := "/boot/efi",
        extraGrubInstallArgs := [] }
      { fullName := "NixOS", fullVersion := "24.05",
        efiSysMountPoint := "/boot/efi", devices := ["/dev/sda"],
        extraGrubInstallArgs := [] }
      (.biosOnly "/nix/store/aaa-grub-2.12")).1 = true := by decide

/-- C4: `update` reports dirty exactly when one of the six conditions
holds — name, version, EFI-mode string or mount point differ, or the
desired device set (respectively extra-args set) is not disjoint from the
persisted one — and each triggering field is overwritten with the desired
value, the others kept. -/
theorem C4_update_characterisation (s : GrubState) (c : Config) (t : EfiTarget) :
    ((GrubState.update s c t).1 = true ↔
      (listDisjoint c.devices s.devices = false ∨
       listDisjoint c.extraGrubInstallArgs s.extraGrubInstallArgs = false ∨
       c.fullName ≠ s.name ∨
       c.fullVersion ≠ s.version ∨
       t.toStr ≠ s.efi ∨
       c.efiSysMountPoint ≠ s.efiMountPoint))
  ∧ (GrubState.update s c t).2.devices =
      (if listDisjoint c.devices s.devices then s.devices else c.devices)
  ∧ (GrubState.update s c t).2.extraGrubInstallArgs =
      (if listDisjoint c.extraGrubInstallArgs s.extraGrubInstallArgs
       then s.extraGrubInstallArgs else c.extraGrubInstallArgs)
  ∧ (GrubState.update s c t).2.name = c.fullName
  ∧ (GrubState.update s c t).2.version = c.fullVersion
  ∧ (GrubState.update s c t).2.efi = t.toStr
  ∧ (GrubState.update s c t).2.efiMountPoint = c.efiSysMountPoint := by
  by_cases h1 : listDisjoint c.devices s.devices <;>
  by_cases h2 : listDisjoint c.extraGrubInstallArgs s.extraGrubInstallArgs <;>
  by_cases h3 : c.fullName = s.name <;>
  by_cases h4 : c.fullVersion = s.version <;>
  by_cases h5 : t.toStr = s.efi <;>
  by_cases h6 : c.efiSysMountPoint = s.efiMountPoint <;>
  simp_all [GrubState.update, bne]

/-- C5: the claim says a user whose selected source is hashed is accepted
exactly when the hash begins with `grub.pbkdf2.`.  The guard in the code
compares against the misspelt prefix `grub.pdkdf2`, so a well-formed
`grub.pbkdf2.` hash is rejected with the invalid-hashed-password error
while a string with the misspelt prefix is accepted. -/
theorem C5_pbkdf2_hash_rejected :
    userPassword (fun _ => none) "alice"
      { hashedPasswordFile := none,
        hashedPassword := some "grub.pbkdf2.sha512.10000.AB12",
        passwordFile := none, password := none }
      = .error (.invalidHashedPassword "grub.pbkdf2.sha512.10000.AB12" "alice")
  ∧ userPassword (fun _ => none) "bob"
      { hashedPasswordFile := none,
        hashedPassword := some "grub.pdkdf2-not-a-real-hash",
        passwordFile := none, password := none }
      = .ok ("bob", .hashed "grub.pdkdf2-not-a-real-hash") :=
  ⟨rfl, rfl⟩

/-- C6: the claim says the config-XML path is the first positional
argument and fewer than two positional arguments are an error.  The code
consumes the OS argument vector without skipping the program name, so with
two positional arguments it parses the program name as the config path,
and with a single positional argument it reports no error at all. -/
theorem C6_argv0_parsed_as_config :
    mainArgs ["install-grub", "/cfg/boot.xml", "/nix/store/sys"]
      = .ok ("install-grub", "/cfg/boot.xml")
  ∧ ("install-grub" : String) ≠ "/cfg/boot.xml"
  ∧ mainArgs ["install-grub", "/cfg/boot.xml"]
      = .ok ("install-grub", "/cfg/boot.xml") :=
  ⟨rfl, by decide, rfl⟩

/-- C7 counterexample: the claim calls every combination outside its four
listed shapes an error, but with both packages unset and a BIOS target
still set — not one of the four shapes — `deduce` succeeds with
`Neither` instead of failing. -/
theorem C7_counterexample :
    ¬ (∀ g ge gt gte : Option String,
        (claimedDeduce g ge gt gte = none →
          (EfiTarget.deduce g ge gt gte).isOk = false) ∧
        (∀ t, claimedDeduce g ge gt gte = some t →
          EfiTarget.deduce g ge gt gte = .ok t)) := by
  intro h
  have h1 := (h none none (some "i386-pc") none).1 rfl
  simp [EfiTarget.deduce, Except.isOk, Except.toBool] at h1

/-- C7 amended: the target matrix maps all four set to Both; grub set with
grubEfi unset to BiosOnly; grub unset with grubEfi and grubTargetEfi set
to EfiOnly; grub and grubEfi both unset to Neither regardless of the
target fields; the remaining combinations — both packages without both
targets, or the EFI package without its target — are errors; and the
EFI-mode strings for the four variants are both, no, only, neither. -/
theorem C7_target_matrix (a b c d : String) (gt gte : Option String) :
    EfiTarget.deduce (some a) (some b) (some c) (some d)
      = .ok (.both a c b d)
  ∧ EfiTarget.deduce (some a) none gt gte = .ok (.biosOnly a)
  ∧ EfiTarget.deduce none (some b) gt (some d) = .ok (.efiOnly b d)
  ∧ EfiTarget.deduce none none gt gte = .ok .neither
  ∧ (EfiTarget.deduce (some a) (some b) none gte).isOk = false
  ∧ (EfiTarget.deduce (some a) (some b) gt none).isOk = false
  ∧ (EfiTarget.deduce none (some b) gt none).isOk = false
  ∧ EfiTarget.toStr (.both a c b d) = "both"
  ∧ EfiTarget.toStr (.biosOnly a) = "no"
  ∧ EfiTarget.toStr (.efiOnly b d) = "only"
  ∧ EfiTarget.toStr .neither = "neither" := by
  cases gt <;> cases gte <;>
    simp [EfiTarget.deduce, EfiTarget.toStr, Except.isOk, Except.toBool]

/-- C8: the claim says the 0137 file-creation mask is set before the hook
runs — which the event trace confirms — and restored on every exit path.
On the path where the hook fails for the current system the routine
returns the error without restoring the mask: the trace ends at the hook
invocation and the final mask is still 0137, not the previous 022. -/
theorem C8_umask_leaked_on_current_failure :
    (appendInitrdSecretsStaging 0o022 true "sys-1" "/boot"
      false false true false).events = [.umaskSet 0o137, .hookInvoked]
  ∧ (appendInitrdSecretsStaging 0o022 true "sys-1" "/boot"
      false false true false).result = .error "Failed to create initrd secrets"
  ∧ (appendInitrdSecretsStaging 0o022 true "sys-1" "/boot"
      false false true false).finalUmask = 0o137
  ∧ (0o137 : Nat) ≠ 0o022 :=
  ⟨rfl, rfl, rfl, by decide⟩

/-- C9: the claim says the font is copied to converted-font.pf2 under the
boot path and the emitted loadfont references that same file under the
GRUB boot path.  The copy destination checks out, and the gfxterm and
per-platform lines follow, but the loadfont argument is built from the
different literal convert-font.pf2, so the header references a file that
was never written. -/
theorem C9_loadfont_references_wrong_file :
    fontCopyDest "/boot" = "/boot/converted-font.pf2"
  ∧ (appendFontLines "/boot" "auto" "keep" "1024x768" "text").get? 1
      = some "if loadfont /boot/convert-font.pf2; then"
  ∧ (appendFontLines "/boot" "auto" "keep" "1024x768" "text").get? 2
      = some "  insmod gfxterm"
  ∧ fontLoadfontArg "/boot" ≠ fontCopyDest "/boot" :=
  ⟨rfl, rfl, rfl, by decide⟩

/-- C10: when the specialisation subdirectory of a generation cannot be
read — missing counts as unreadable — `add_generation` fails, and the
failure propagates out of the default-entry call site as well as out of
the per-profile generation loop, wherever in the list that generation
sits. -/
theorem C10_unreadable_specialisation_fatal
    (fs : String → Option (List String)) (p : String) (others : List String)
    (h : fs (p ++ "/specialisation") = none) :
    (addGeneration fs p
      = .error ("cannot read directory " ++ p ++ "/specialisation"))
  ∧ (appendDefaultEntries fs p).isOk = false
  ∧ (addProfileGenerations fs (others ++ [p])).isOk = false := by
  have hg : addGeneration fs p
      = .error ("cannot read directory " ++ p ++ "/specialisation") := by
    simp [addGeneration, h]
  refine ⟨hg, ?_, ?_⟩
  · simp [appendDefaultEntries, hg, Except.isOk, Except.toBool]
  · induction others with
    | nil => simp [addProfileGenerations, hg, Except.isOk, Except.toBool]
    | cons o rest ih =>
      simp only [List.cons_append, addProfileGenerations]
      simp only [Except.isOk, Except.toBool] at ih ⊢
      cases hgo : addGeneration fs o <;> simp [ih]

/-- C10 witness: a filesystem with no readable directories makes a
generation with an unreadable specialisation directory fatal for the
default entry and for a profile listing it after another generation. -/
theorem C10_unreadable_specialisation_fatal_witness :
    ((fun _ : String => (none : Option (List String)))
        ("/nix/var/nix/profiles/system-42-link" ++ "/specialisation") = none)
  ∧ ((addGeneration (fun _ => none) "/nix/var/nix/profiles/system-42-link"
        = .error ("cannot read directory "
            ++ "/nix/var/nix/profiles/system-42-link" ++ "/specialisation"))
     ∧ (appendDefaultEntries (fun _ => none)
          "/nix/var/nix/profiles/system-42-link").isOk = false
     ∧ (addProfileGenerations (fun _ => none)
          (["/nix/var/nix/profiles/system-41-link"]
            ++ ["/nix/var/nix/profiles/system-42-link"])).isOk = false) :=
  ⟨rfl, C10_unreadable_specialisation_fatal (fun _ => none)
      "/nix/var/nix/profiles/system-42-link"
      ["/nix/var/nix/profiles/system-41-link"] rfl⟩

end InstallGrub
